import Mathlib

/-!
# Blogicum: verification of the visibility / authorization rule set

Shallow embedding of the Django application in `blogicum/` (models in
`blog/models.py`, class-based views in `blog/views.py`, forms in
`blog/forms.py`).  Entities are plain structures, the database is a record
of lists, querysets are list filters, and each class-based view's
`dispatch`/`get_queryset`/`get_object`/`form_valid` override is a Lean
function on the database and the requesting viewer.

Time (`pub_date`, `timezone.now()`) is an integer timestamp.  Foreign keys
are ids (`Nat`); nullable foreign keys (`Post.location`, `Post.category`,
both `on_delete=SET_NULL, null=True`) are `Option Nat`.
-/

namespace Blogicum

/-- A row of the framework `User` model (`get_user_model()` in models.py). -/
structure User where
  id : Nat
  username : String
  is_superuser : Bool
deriving Repr, DecidableEq

/-- Model of `request.user`: either an authenticated user (compares equal to a model
`User` exactly when the ids match) or `AnonymousUser`
(`is_authenticated = false`, never equal to any model user, and
`is_superuser = false` in Django; theorems quantify over all values). -/
structure Viewer where
  is_authenticated : Bool
  id : Nat
  is_superuser : Bool
deriving Repr, DecidableEq

/-- Model of `request.user == u` for a model user with id `uid`: Django `User.__eq__`
compares primary keys, and `AnonymousUser` equals no model user. -/
def viewerIs (v : Viewer) (uid : Nat) : Bool :=
  v.is_authenticated && v.id == uid

/-- The `Category` model: title, description, unique slug, `is_published`
(from the abstract `PublishedAndCreatedField`). -/
structure Category where
  id : Nat
  title : String
  description : String
  slug : String
  is_published : Bool
deriving Repr, DecidableEq

/-- The `Location` model: name and `is_published`. -/
structure Location where
  id : Nat
  name : String
  is_published : Bool
deriving Repr, DecidableEq

/-- The `Post` model.  `author` is a non-null FK to `User`
(`on_delete=CASCADE`); `location` and `category` are nullable FKs
(`on_delete=SET_NULL, null=True`).  `is_published` defaults to `True`. -/
structure Post where
  id : Nat
  title : String
  text : String
  pub_date : Int
  is_published : Bool
  author : Nat
  location : Option Nat
  category : Option Nat
  image : String
deriving Repr, DecidableEq

/-- The `Comment` model: text, parent `post` FK (`on_delete=CASCADE`),
`author` FK to `User` (`on_delete=CASCADE`), `created_at`. -/
structure Comment where
  id : Nat
  text : String
  post : Nat
  created_at : Int
  author : Nat
deriving Repr, DecidableEq

/-- The database: one table per model. -/
structure DB where
  users : List User
  categories : List Category
  locations : List Location
  posts : List Post
  comments : List Comment
deriving Repr, DecidableEq

/-- Lookup `Post.objects.get(pk=pid)` — first row with the primary key. -/
def findPost (db : DB) (pid : Nat) : Option Post :=
  db.posts.find? (fun p => p.id == pid)

/-- Lookup `Comment.objects.get(pk=cid)`. -/
def findComment (db : DB) (cid : Nat) : Option Comment :=
  db.comments.find? (fun c => c.id == cid)

/-- Lookup `Category.objects.get(pk=cid)` — dereferencing a `category_id` FK. -/
def findCategory (db : DB) (cid : Nat) : Option Category :=
  db.categories.find? (fun c => c.id == cid)

/-- Lookup `User.objects.get(username=name)` (`get_object_or_404(User, username=…)`). -/
def findUser (db : DB) (name : String) : Option User :=
  db.users.find? (fun u => u.username == name)

/-- The SQL join behind the queryset condition `category__is_published=True`:
a row with `category_id NULL` does not join, hence fails the condition. -/
def categoryPublishedJoin (db : DB) (p : Post) : Bool :=
  match p.category with
  | none => false
  | some cid =>
    match findCategory db cid with
    | none => false
    | some c => c.is_published

/-- The queryset condition `category__slug=slug` (again an inner join). -/
def categorySlugJoin (db : DB) (p : Post) (slug : String) : Bool :=
  match p.category with
  | none => false
  | some cid =>
    match findCategory db cid with
    | none => false
    | some c => c.slug == slug

/-- The filter of `IndexListView.get_queryset` (views.py 28-33):
`is_published=True, pub_date__lte=timezone.now(), category__is_published=True`. -/
def indexFilter (db : DB) (now : Int) (p : Post) : Bool :=
  p.is_published && decide (p.pub_date ≤ now) && categoryPublishedJoin db p

/-- Modelled from the spec: the spec's "publicly visible" predicate
("is_published is true AND pub_date ≤ current time AND its Category
(if any) is_published is true"), in which a post without a category is
visible.  Used only to compare the spec's wording with the code's
`indexFilter`; the code is `indexFilter`. -/
def publiclyVisibleSpec (db : DB) (now : Int) (p : Post) : Bool :=
  p.is_published && decide (p.pub_date ≤ now) &&
    (match p.category with
     | none => true
     | some cid =>
       match findCategory db cid with
       | none => true
       | some c => c.is_published)

/-- The `COUNT` behind `annotate(comment_count=Count('comments'))`: the number
of comments whose parent is the given post. -/
def commentCount (db : DB) (pid : Nat) : Nat :=
  (db.comments.filter (fun c => c.post == pid)).length

/-- A feed row: a post together with its annotated `comment_count`. -/
structure AnnotatedPost where
  post : Post
  comment_count : Nat
deriving Repr, DecidableEq

/-- Mapping `annotate(comment_count=Count('comments'))` over a queryset. -/
def annotate (db : DB) (ps : List Post) : List AnnotatedPost :=
  ps.map (fun p => ⟨p, commentCount db p.id⟩)

/-- Insertion step of `ORDER BY pub_date DESC` (`ordering = ('-pub_date',)`). -/
def insertDesc (p : Post) : List Post → List Post
  | [] => [p]
  | q :: qs =>
    if q.pub_date ≤ p.pub_date then p :: q :: qs else q :: insertDesc p qs

/-- Sorting `ORDER BY pub_date DESC`: newest first. -/
def sortDesc : List Post → List Post
  | [] => []
  | p :: ps => insertDesc p (sortDesc ps)

/-- Page size `paginate_by = PAGE_NUM` with `PAGE_NUM = 10` (views.py line 18). -/
def PAGE_NUM : Nat := 10

/-- The slice of feed rows served for page `n` (1-based), as Django's
`Paginator` produces it. -/
def pageSlice (n : Nat) (l : List AnnotatedPost) : List AnnotatedPost :=
  (l.drop ((n - 1) * PAGE_NUM)).take PAGE_NUM

/-- The index feed, `IndexListView` (views.py 21-33): published, already-due posts whose
category is published, newest first, annotated with comment count. -/
def indexFeed (db : DB) (now : Int) : List AnnotatedPost :=
  annotate db (sortDesc (db.posts.filter (indexFilter db now)))

/-- The profile feed, `ProfileListView.get_queryset` (views.py 100-106): resolve the profile
user by username (`get_object_or_404`, `none` = 404), then ALL of that
user's posts — the viewer is available on the request but never consulted,
so the argument `v` is unused, exactly as in the source. -/
def profileFeed (db : DB) (_v : Viewer) (username : String) :
    Option (List AnnotatedPost) :=
  match findUser db username with
  | none => none
  | some u =>
    some (annotate db (sortDesc (db.posts.filter (fun p => p.author == u.id))))

/-- The filter of `CategoryListView.get_queryset` (views.py 164-176) once
the category `cat` has been resolved: `is_published=True,
pub_date__lte=now, category__is_published=True, category__slug=slug,
category=cat`. -/
def categoryFilter (db : DB) (now : Int) (slug : String) (cat : Category)
    (p : Post) : Bool :=
  p.is_published && decide (p.pub_date ≤ now) && categoryPublishedJoin db p
    && categorySlugJoin db p slug && (p.category == some cat.id)

/-- Possible outcomes of a request, as the overridden view methods produce
them. `noneTypeError` is the unhandled `AttributeError` raised by
dereferencing a `None` relation (an HTTP 500, not a page and not a 404). -/
inductive Outcome where
  | success
  | notFound404
  | redirectLogin
  | forbidden403
  | redirectDetail
  | noneTypeError
deriving Repr, DecidableEq

/-- Result of a listing request: either the rows of the feed or an error
outcome. -/
inductive FeedResult where
  | ok : List AnnotatedPost → FeedResult
  | error : Outcome → FeedResult
deriving Repr, DecidableEq

/-- The category feed, `CategoryListView` (views.py 155-176).  The view carries
`LoginRequiredMixin`, so an unauthenticated request is redirected to the
login page before any queryset is built.  Otherwise
`get_object_or_404(Category, slug=…, is_published=True)` (404 on failure),
then the filtered feed. -/
def categoryFeed (db : DB) (v : Viewer) (now : Int) (slug : String) :
    FeedResult :=
  if v.is_authenticated then
    match db.categories.find? (fun c => c.slug == slug && c.is_published) with
    | none => .error .notFound404
    | some cat =>
      .ok (annotate db (sortDesc (db.posts.filter (categoryFilter db now slug cat))))
  else .error .redirectLogin

/-- Post detail, `PostDetailView.dispatch` (views.py 214-223).  `get_object` resolves the
post (404 if missing); then
`if self.get_object().author != self.request.user and (A or B or C)` with
`A = is_published is False`, `B = category.is_published is False`,
`C = pub_date > timezone.now()`, evaluated left to right with Python
short-circuiting: `B` dereferences `category`, which is `None` for a post
without a category (`AttributeError` → 500). -/
def postDetailDispatch (db : DB) (v : Viewer) (pid : Nat) (now : Int) :
    Outcome :=
  match findPost db pid with
  | none => .notFound404
  | some p =>
    if viewerIs v p.author then .success
    else if p.is_published = false then .notFound404
    else
      match p.category with
      | none => .noneTypeError
      | some cid =>
        match findCategory db cid with
        | none => .noneTypeError
        | some c =>
          if c.is_published = false then .notFound404
          else if now < p.pub_date then .notFound404
          else .success

/-- Comment update, `CommentUpdateView.dispatch` (views.py 43-52).  An authenticated viewer
hits `get_object_or_404(Comment, pk=comment_id, author=request.user)` —
404 unless a comment with that pk AND that author exists (a superuser who
is not the author gets 404 too) — and then the update proceeds.  An
unauthenticated viewer falls to `super().dispatch`, where
`LoginRequiredMixin` redirects to the login page. -/
def commentUpdateDispatch (db : DB) (v : Viewer) (cid : Nat) : Outcome :=
  if v.is_authenticated then
    match db.comments.find? (fun c => c.id == cid && c.author == v.id) with
    | none => .notFound404
    | some _ => .success
  else .redirectLogin

/-- Comment delete, `CommentDeleteView` (views.py 61-88).  `LoginRequiredMixin` runs first,
so an unauthenticated request is redirected to login.  `get_object`
resolves the comment (404 if missing) and raises `PermissionDenied` (403)
unless `request.user == comment.author or request.user.is_superuser`. -/
def commentDeleteDispatch (db : DB) (v : Viewer) (cid : Nat) : Outcome :=
  if v.is_authenticated then
    match findComment db cid with
    | none => .notFound404
    | some c =>
      if viewerIs v c.author || v.is_superuser then .success
      else .forbidden403
  else .redirectLogin

/-- Post update, `PostUpdateView.dispatch` (views.py 247-263):
`get_object_or_404(Post, pk=post_id)` first (404 on a missing post for any
viewer), then an unauthenticated viewer is redirected to the post's detail
page, then `request.user != post.author` is redirected to the detail page,
and only the author proceeds. -/
def postUpdateDispatch (db : DB) (v : Viewer) (pid : Nat) : Outcome :=
  match findPost db pid with
  | none => .notFound404
  | some p =>
    if ¬v.is_authenticated then .redirectDetail
    else if viewerIs v p.author then .success
    else .redirectDetail

/-- Post delete, `PostDeleteView.dispatch` (views.py 278-294): an authenticated viewer
gets `get_object_or_404` (404 on missing post) and proceeds only as the
author, otherwise a redirect to the detail page; an unauthenticated viewer
is redirected to the detail page without the post being looked up. -/
def postDeleteDispatch (db : DB) (v : Viewer) (pid : Nat) : Outcome :=
  if v.is_authenticated then
    match findPost db pid with
    | none => .notFound404
    | some p =>
      if viewerIs v p.author then .success
      else .redirectDetail
  else .redirectDetail

/-- The editable fields of `PostUpdateView`
(`fields = title, text, pub_date, location, category, image, is_published`);
`author` is not among them. -/
structure PostEdit where
  title : String
  text : String
  pub_date : Int
  location : Option Nat
  category : Option Nat
  image : String
  is_published : Bool
deriving Repr, DecidableEq

/-- Applying a `PostEdit` to a row: every listed field is overwritten,
`id` and `author` are untouched. -/
def applyPostEdit (e : PostEdit) (p : Post) : Post :=
  { p with
    title := e.title, text := e.text, pub_date := e.pub_date,
    location := e.location, category := e.category, image := e.image,
    is_published := e.is_published }

/-- Database effect of a `POST` to `PostUpdateView`: the row is rewritten
only when `dispatch` let the request through. -/
def postUpdateState (db : DB) (v : Viewer) (pid : Nat) (e : PostEdit) : DB :=
  if postUpdateDispatch db v pid = .success then
    let edited := db.posts.map (fun p => if p.id == pid then applyPostEdit e p else p)
    { db with posts := edited }
  else db

/-- Effect of `post.delete()`: the row goes away and, because `Comment.post` is
`on_delete=CASCADE` (models.py 121-126), so does every comment whose
parent is that post.  Nothing else is touched. -/
def deletePost (db : DB) (pid : Nat) : DB :=
  { db with
    posts := db.posts.filter (fun p => !(p.id == pid)),
    comments := db.comments.filter (fun c => !(c.post == pid)) }

/-- Database effect of a `POST` to `PostDeleteView`. -/
def postDeleteState (db : DB) (v : Viewer) (pid : Nat) : DB :=
  if postDeleteDispatch db v pid = .success then deletePost db pid else db

/-- Database effect of a `POST` to `CommentUpdateView`: the comment's text
is rewritten (`CommentForm` exposes only `text`) when `dispatch` let the
request through. -/
def commentUpdateState (db : DB) (v : Viewer) (cid : Nat) (newText : String) :
    DB :=
  if commentUpdateDispatch db v cid = .success then
    let edited := db.comments.map
      (fun c => if c.id == cid then { c with text := newText } else c)
    { db with comments := edited }
  else db

/-- Database effect of a `POST` to `CommentDeleteView`. -/
def commentDeleteState (db : DB) (v : Viewer) (cid : Nat) : DB :=
  if commentDeleteDispatch db v cid = .success then
    { db with comments := db.comments.filter (fun c => !(c.id == cid)) }
  else db

/-- Clearing of `Post.category` on `SET_NULL`, and the same for `Post.location`, clearing on `SET_NULL`. -/
def clearCategoryFK (cid : Nat) (p : Post) : Post :=
  if p.category == some cid then { p with category := none } else p

def clearLocationFK (lid : Nat) (p : Post) : Post :=
  if p.location == some lid then { p with location := none } else p

/-- Effect of `category.delete()`: `Post.category` is `on_delete=SET_NULL`
(models.py 91-96), so dependent posts survive with the FK cleared. -/
def deleteCategory (db : DB) (cid : Nat) : DB :=
  { db with
    categories := db.categories.filter (fun c => !(c.id == cid)),
    posts := db.posts.map (clearCategoryFK cid) }

/-- Effect of `location.delete()`: `Post.location` is `on_delete=SET_NULL`
(models.py 84-90). -/
def deleteLocation (db : DB) (lid : Nat) : DB :=
  { db with
    locations := db.locations.filter (fun l => !(l.id == lid)),
    posts := db.posts.map (clearLocationFK lid) }

/-- Effect of `user.delete()`: `Post.author` and `Comment.author` are both
`on_delete=CASCADE` (models.py 79-83 and 128-133), so the user's posts and
comments go away, and the cascade from each deleted post removes the
comments sitting on it. -/
def deleteUser (db : DB) (uid : Nat) : DB :=
  { db with
    users := db.users.filter (fun u => !(u.id == uid)),
    posts := db.posts.filter (fun p => !(p.author == uid)),
    comments := db.comments.filter (fun c =>
      !(c.author == uid) &&
        !(db.posts.any (fun p => p.id == c.post && p.author == uid))) }

/-- The fields `PostCreateView` exposes
(`fields = title, text, pub_date, location, category, image`, views.py 188);
`PostForm` likewise has `exclude = ['author']` (forms.py 6-17).  There is
no author field for form input to set. -/
structure PostFormInput where
  title : String
  text : String
  pub_date : Int
  location : Option Nat
  category : Option Nat
  image : String
deriving Repr, DecidableEq

/-- Post creation, `PostCreateView` (views.py 185-197): `LoginRequiredMixin` turns away
unauthenticated requests; `form_valid` builds the instance from the form
fields (with the model default `is_published=True`) and assigns
`post.author = self.request.user` server-side.  (The
`post.published = False` line for future-dated posts sets a nonexistent
attribute and leaves `is_published` untouched.) -/
def postCreate (v : Viewer) (input : PostFormInput) (newId : Nat) :
    Option Post :=
  if v.is_authenticated then
    some { id := newId, title := input.title, text := input.text,
           pub_date := input.pub_date, is_published := true,
           author := v.id, location := input.location,
           category := input.category, image := input.image }
  else none

/-- Comment creation, `CommentCreateView` (views.py 303-314): login required; `form_valid`
resolves the parent post with `get_object_or_404` and assigns
`form.instance.author = self.request.user` and `form.instance.post = post`
server-side; `CommentForm` exposes only `text` (forms.py 28-36). -/
def commentCreate (db : DB) (v : Viewer) (pid : Nat) (text : String)
    (newId : Nat) (now : Int) : Option Comment :=
  if v.is_authenticated then
    match findPost db pid with
    | none => none
    | some _ =>
      some { id := newId, text := text, post := pid, created_at := now,
             author := v.id }
  else none

/-! ## Helper lemmas about the queryset pipeline -/

/-- Inserting into the descending-ordered list adds exactly one element. -/
theorem mem_insertDesc {x p : Post} {l : List Post} :
    x ∈ insertDesc p l ↔ x = p ∨ x ∈ l := by
  induction l with
  | nil => simp [insertDesc]
  | cons q qs ih =>
    simp only [insertDesc]
    split
    · simp [List.mem_cons]
    · simp only [List.mem_cons, ih]
      tauto

/-- Sorting does not change the elements of the queryset. -/
theorem mem_sortDesc {x : Post} {l : List Post} : x ∈ sortDesc l ↔ x ∈ l := by
  induction l with
  | nil => simp [sortDesc]
  | cons p ps ih =>
    simp only [sortDesc, mem_insertDesc, ih, List.mem_cons]

/-- Insertion preserves the newest-first ordering. -/
theorem pairwise_insertDesc {p : Post} {l : List Post}
    (h : l.Pairwise (fun a b => b.pub_date ≤ a.pub_date)) :
    (insertDesc p l).Pairwise (fun a b => b.pub_date ≤ a.pub_date) := by
  induction l with
  | nil => simp [insertDesc]
  | cons q qs ih =>
    rw [List.pairwise_cons] at h
    obtain ⟨hq, hqs⟩ := h
    simp only [insertDesc]
    split
    next hle =>
      rw [List.pairwise_cons]
      refine ⟨?_, ?_⟩
      · intro x hx
        rcases List.mem_cons.mp hx with rfl | hx
        · exact hle
        · exact le_trans (hq x hx) hle
      · rw [List.pairwise_cons]
        exact ⟨hq, hqs⟩
    next hgt =>
      rw [List.pairwise_cons]
      refine ⟨?_, ih hqs⟩
      intro x hx
      rcases mem_insertDesc.mp hx with rfl | hx
      · omega
      · exact hq x hx

/-- The sorted queryset is ordered newest first. -/
theorem pairwise_sortDesc (l : List Post) :
    (sortDesc l).Pairwise (fun a b => b.pub_date ≤ a.pub_date) := by
  induction l with
  | nil => simp [sortDesc]
  | cons p ps ih => exact pairwise_insertDesc ih

/-- Membership in an annotated queryset. -/
theorem mem_annotate {db : DB} {ps : List Post} {a : AnnotatedPost} :
    a ∈ annotate db ps ↔ ∃ p ∈ ps, a = ⟨p, commentCount db p.id⟩ := by
  simp only [annotate, List.mem_map]
  constructor
  · rintro ⟨p, hp, rfl⟩
    exact ⟨p, hp, rfl⟩
  · rintro ⟨p, hp, rfl⟩
    exact ⟨p, hp, rfl⟩

/-- A post appears in a filter-sort-annotate pipeline iff it is a row of
the table satisfying the filter. -/
theorem mem_pipeline {db : DB} {l : List Post} {pred : Post → Bool} {p : Post} :
    (∃ a ∈ annotate db (sortDesc (l.filter pred)), a.post = p) ↔
      (p ∈ l ∧ pred p = true) := by
  constructor
  · rintro ⟨a, ha, hap⟩
    obtain ⟨q, hq, rfl⟩ := mem_annotate.mp ha
    cases hap
    exact List.mem_filter.mp (mem_sortDesc.mp hq)
  · rintro ⟨hp, hpred⟩
    refine ⟨⟨p, commentCount db p.id⟩, ?_, rfl⟩
    exact mem_annotate.mpr
      ⟨p, mem_sortDesc.mpr (List.mem_filter.mpr ⟨hp, hpred⟩), rfl⟩

/-- In a list whose elements have pairwise-distinct keys, the key
determines the element (used for the `unique=True` columns). -/
theorem eq_of_pairwise_key {α β : Type} (f : α → β) {l : List α}
    (h : l.Pairwise (fun a b => f a ≠ f b)) {x y : α}
    (hx : x ∈ l) (hy : y ∈ l) (hf : f x = f y) : x = y := by
  induction l with
  | nil => cases hx
  | cons a as ih =>
    rw [List.pairwise_cons] at h
    obtain ⟨ha, has⟩ := h
    rcases List.mem_cons.mp hx with rfl | hx'
    · rcases List.mem_cons.mp hy with rfl | hy'
      · rfl
      · exact absurd hf (ha y hy')
    · rcases List.mem_cons.mp hy with rfl | hy'
      · exact absurd hf.symm (ha x hx')
      · exact ih has hx' hy'

/-- With pairwise-distinct ids, looking a member up by its own id finds it. -/
theorem find?_self_of_mem {α : Type} (f : α → Nat) {l : List α}
    (h : l.Pairwise (fun a b => f a ≠ f b)) {x : α} (hx : x ∈ l) :
    l.find? (fun a => f a == f x) = some x := by
  induction l with
  | nil => cases hx
  | cons a as ih =>
    rw [List.pairwise_cons] at h
    obtain ⟨ha, has⟩ := h
    rcases List.mem_cons.mp hx with rfl | hx
    · exact List.find?_cons_of_pos _ (by simp)
    · rw [List.find?_cons_of_neg _ (by simp [ha x hx]), ih has hx]

/-- The guarantees shared by the three listing views: newest-first order,
pages of at most `PAGE_NUM` rows, and a correct `comment_count` on every
row. -/
def goodFeed (db : DB) (n : Nat) (l : List AnnotatedPost) : Prop :=
  l.Pairwise (fun a b => b.post.pub_date ≤ a.post.pub_date) ∧
  (pageSlice n l).length ≤ PAGE_NUM ∧
  ∀ a ∈ l, a.comment_count =
    (db.comments.filter (fun c => c.post == a.post.id)).length

/-- Every filter-sort-annotate pipeline satisfies `goodFeed`. -/
theorem goodFeed_pipeline (db : DB) (n : Nat) (l : List Post)
    (pred : Post → Bool) :
    goodFeed db n (annotate db (sortDesc (l.filter pred))) := by
  refine ⟨?_, ?_, ?_⟩
  · rw [annotate, List.pairwise_map]
    exact pairwise_sortDesc _
  · simp only [pageSlice, List.length_take]
    omega
  · intro a ha
    obtain ⟨p, _, rfl⟩ := mem_annotate.mp ha
    simp [commentCount]

/-! ## Concrete data for counterexamples and witnesses -/

/-- Example user alice (id 1). -/
def alice : User := ⟨1, "alice", false⟩

/-- Example user bob (id 2). -/
def bobUser : User := ⟨2, "bob", false⟩

/-- Viewer alice, authenticated, not an administrator. -/
def aliceV : Viewer := ⟨true, 1, false⟩

/-- Viewer bob, authenticated, not an administrator. -/
def bobV : Viewer := ⟨true, 2, false⟩

/-- An authenticated administrator (superuser, id 3). -/
def adminV : Viewer := ⟨true, 3, true⟩

/-- The anonymous viewer. -/
def anonV : Viewer := ⟨false, 0, false⟩

/-- A published category with slug "tech". -/
def catTech : Category := ⟨10, "Tech", "d", "tech", true⟩

/-- A published, already-due post by alice in the published category. -/
def pubPost : Post := ⟨1, "t1", "x", 5, true, 1, none, some 10, ""⟩

/-- An unpublished post by alice. -/
def unpubPost : Post := ⟨2, "t2", "x", 5, false, 1, none, some 10, ""⟩

/-- A published, already-due post by alice with no category. -/
def nullCatPost : Post := ⟨3, "t3", "x", 5, true, 1, none, none, ""⟩

/-- An unpublished post by alice with no category. -/
def nullCatUnpub : Post := ⟨4, "t4", "x", 5, false, 1, none, none, ""⟩

/-- A comment by bob on `pubPost`. -/
def exComment : Comment := ⟨1, "hi", 1, 7, 2⟩

/-- The base example database. -/
def exDB : DB :=
  ⟨[alice, bobUser], [catTech], [⟨20, "Home", true⟩], [pubPost], [exComment]⟩

/-- Database for the profile-feed counterexample: alice has exactly one
post and it is unpublished. -/
def exDB1 : DB := ⟨[alice, bobUser], [catTech], [], [unpubPost], []⟩

/-- Database for the null-category counterexamples. -/
def exDB3 : DB :=
  ⟨[alice, bobUser], [catTech], [], [nullCatPost, nullCatUnpub], []⟩

/-- A sample edit payload for `PostUpdateView`. -/
def exEdit : PostEdit := ⟨"t9", "y", 6, none, some 10, "", true⟩

/-- A sample creation payload for `PostCreateView`. -/
def exInput : PostFormInput := ⟨"t7", "z", 5, none, some 10, ""⟩

/-- The post `postCreate aliceV exInput 7` stores. -/
def exCreatedPost : Post := ⟨7, "t7", "z", 5, true, 1, none, some 10, ""⟩

/-- Unfolded characterisation of the `category__is_published=True` join. -/
theorem categoryPublishedJoin_eq_true {db : DB} {p : Post} :
    categoryPublishedJoin db p = true ↔
      ∃ cid c, p.category = some cid ∧ findCategory db cid = some c ∧
        c.is_published = true := by
  constructor
  · intro h
    unfold categoryPublishedJoin at h
    cases hcat : p.category with
    | none => rw [hcat] at h; simp at h
    | some cid =>
      simp only [hcat] at h
      cases hfc : findCategory db cid with
      | none => rw [hfc] at h; simp at h
      | some c =>
        rw [hfc] at h
        exact ⟨cid, c, rfl, hfc, h⟩
  · rintro ⟨cid, c, hcat, hfc, hcpub⟩
    unfold categoryPublishedJoin
    simp only [hcat, hfc]
    exact hcpub

/-- Value of the published join for a resolved category. -/
theorem categoryPublishedJoin_of_eq {db : DB} {p : Post} {cid : Nat}
    {c : Category} (hcat : p.category = some cid)
    (hfc : findCategory db cid = some c) :
    categoryPublishedJoin db p = c.is_published := by
  unfold categoryPublishedJoin
  simp only [hcat, hfc]

/-- Value of the slug join for a resolved category. -/
theorem categorySlugJoin_of_eq {db : DB} {p : Post} {slug : String}
    {cid : Nat} {c : Category} (hcat : p.category = some cid)
    (hfc : findCategory db cid = some c) :
    categorySlugJoin db p slug = (c.slug == slug) := by
  unfold categorySlugJoin
  simp only [hcat, hfc]

/-! ## Claims -/

/-- C3, counterexample: the claim says a post appears in the index feed iff
`is_published ∧ pub_date ≤ now ∧` its category (treated as optional) is
published.  `nullCatPost` is published, due, and has no category — so under
the spec's reading it is publicly visible — yet the index feed is empty:
the inner join `category__is_published=True` silently drops posts with
`category = NULL`. -/
theorem c3_index_counterexample :
    nullCatPost ∈ exDB3.posts ∧ nullCatPost.category = none ∧
    publiclyVisibleSpec exDB3 10 nullCatPost = true ∧
    indexFeed exDB3 10 = [] := by decide

/-- C3, amended: a post appears in the index feed iff it is a stored post
with `is_published = true`, `pub_date ≤ now`, AND a non-null category whose
row is published — posts without a category never appear. -/
theorem c3_index_feed_membership (db : DB) (now : Int) (p : Post) :
    (∃ a ∈ indexFeed db now, a.post = p) ↔
      (p ∈ db.posts ∧ p.is_published = true ∧ p.pub_date ≤ now ∧
        ∃ cid c, p.category = some cid ∧ findCategory db cid = some c ∧
          c.is_published = true) := by
  simp only [indexFeed]
  rw [mem_pipeline]
  constructor
  · rintro ⟨hp, hfil⟩
    simp only [indexFilter, Bool.and_eq_true, decide_eq_true_eq] at hfil
    obtain ⟨⟨hpub, hdate⟩, hjoin⟩ := hfil
    exact ⟨hp, hpub, hdate, categoryPublishedJoin_eq_true.mp hjoin⟩
  · rintro ⟨hp, hpub, hdate, cid, c, hcat, hfc, hcpub⟩
    refine ⟨hp, ?_⟩
    simp only [indexFilter, Bool.and_eq_true, decide_eq_true_eq]
    exact ⟨⟨hpub, hdate⟩, categoryPublishedJoin_eq_true.mpr ⟨cid, c, hcat, hfc, hcpub⟩⟩

/-- C1, counterexample: the claim says a viewer other than the profile
owner sees only the owner's publicly visible posts.  Viewer bob is not
alice, alice's only post is unpublished (not publicly visible), and the
profile feed served to bob still contains it: `ProfileListView.get_queryset`
filters by author only and never consults the viewer. -/
theorem c1_profile_counterexample :
    viewerIs bobV unpubPost.author = false ∧
    unpubPost.is_published = false ∧
    publiclyVisibleSpec exDB1 10 unpubPost = false ∧
    profileFeed exDB1 bobV "alice" = some [⟨unpubPost, 0⟩] := by decide

/-- C1, amended: the profile feed is identical for every viewer (owner or
not): it resolves the profile user (404 when the username is unknown) and
then contains exactly ALL of that user's posts, unpublished and
future-dated ones included. -/
theorem c1_profile_feed_ignores_viewer (db : DB) (v v' : Viewer)
    (username : String) (l : List AnnotatedPost)
    (h : profileFeed db v username = some l) :
    profileFeed db v' username = some l ∧
    ∃ u, findUser db username = some u ∧
      ∀ p : Post, ((∃ a ∈ l, a.post = p) ↔ (p ∈ db.posts ∧ p.author = u.id)) := by
  simp only [profileFeed] at h ⊢
  cases hu : findUser db username with
  | none => rw [hu] at h; cases h
  | some u =>
    rw [hu] at h
    rw [Option.some_inj] at h
    subst h
    refine ⟨rfl, u, rfl, ?_⟩
    intro p
    rw [mem_pipeline]
    simp only [beq_iff_eq]

/-- Witness for `c1_profile_feed_ignores_viewer`: the anonymous viewer is
served the same feed as bob. -/
theorem c1_profile_feed_ignores_viewer_witness :
    profileFeed exDB1 anonV "alice" = some [⟨unpubPost, 0⟩] :=
  (c1_profile_feed_ignores_viewer exDB1 bobV anonV "alice"
    [⟨unpubPost, 0⟩] (by decide)).1

/-- C9: a stored post or comment always carries the requesting
(authenticated) user as its author.  The form inputs (`PostFormInput`,
and the bare text of `CommentForm`) contain no author field, and
`form_valid` assigns `author = request.user` server-side, so no form input
can produce a different author. -/
theorem c9_author_is_requester (db : DB) (v : Viewer) (input : PostFormInput)
    (pid newId : Nat) (text : String) (now : Int) :
    (∀ p, postCreate v input newId = some p →
      (p.author = v.id ∧ v.is_authenticated = true)) ∧
    (∀ c, commentCreate db v pid text newId now = some c →
      (c.author = v.id ∧ c.post = pid ∧ v.is_authenticated = true)) := by
  constructor
  · intro p hp
    by_cases hauth : v.is_authenticated = true
    · simp only [postCreate, hauth, if_true] at hp
      cases hp
      exact ⟨rfl, hauth⟩
    · simp only [postCreate, if_neg hauth] at hp
      cases hp
  · intro c hc
    by_cases hauth : v.is_authenticated = true
    · simp only [commentCreate, hauth, if_true] at hc
      cases hfp : findPost db pid with
      | none => rw [hfp] at hc; cases hc
      | some q =>
        rw [hfp] at hc
        cases hc
        exact ⟨rfl, rfl, hauth⟩
    · simp only [commentCreate, if_neg hauth] at hc
      cases hc

/-- Witness for `c9_author_is_requester`: creating a post as alice and a
comment as bob stores their own ids as authors. -/
theorem c9_author_is_requester_witness :
    (exCreatedPost.author = aliceV.id ∧ aliceV.is_authenticated = true) ∧
    ((⟨9, "yo", 1, 8, 2⟩ : Comment).author = bobV.id ∧
      (⟨9, "yo", 1, 8, 2⟩ : Comment).post = 1 ∧
      bobV.is_authenticated = true) :=
  ⟨(c9_author_is_requester exDB aliceV exInput 1 7 "yo" 8).1
      exCreatedPost (by decide),
   (c9_author_is_requester exDB bobV exInput 1 9 "yo" 8).2
      ⟨9, "yo", 1, 8, 2⟩ (by decide)⟩

/-- C10, counterexample: the claim says the detail check dereferences the
null category for EVERY non-author view of a post with `category = null`.
For `nullCatUnpub` (`category = null`, `is_published = false`) the first
disjunct `is_published is False` short-circuits the Python `or`, so the
category is never dereferenced and the view cleanly returns 404. -/
theorem c10_short_circuit_counterexample :
    nullCatUnpub.category = none ∧
    viewerIs bobV nullCatUnpub.author = false ∧
    postDetailDispatch exDB3 bobV 4 10 = Outcome.notFound404 := by decide

/-- C10, amended: for a non-author viewer and a post with `category = null`,
the detail check dereferences the null category (an `AttributeError`, HTTP
500) exactly when `is_published = true`; when `is_published = false` the
first disjunct short-circuits and the view returns 404. -/
theorem c10_null_category_detail (db : DB) (v : Viewer) (pid : Nat)
    (now : Int) (p : Post) (hp : findPost db pid = some p)
    (hv : viewerIs v p.author = false) (hcat : p.category = none) :
    (postDetailDispatch db v pid now = Outcome.noneTypeError ↔
      p.is_published = true) ∧
    (p.is_published = false →
      postDetailDispatch db v pid now = Outcome.notFound404) := by
  simp only [postDetailDispatch, hp, hv, hcat]
  cases hpub : p.is_published <;> simp

/-- Witness for `c10_null_category_detail`: bob viewing the published
uncategorized post hits the null dereference. -/
theorem c10_null_category_detail_witness :
    postDetailDispatch exDB3 bobV 3 10 = Outcome.noneTypeError :=
  ((c10_null_category_detail exDB3 bobV 3 10 nullCatPost (by decide)
      (by decide) (by decide)).1).mpr (by decide)

/-- C4, counterexample: the claim says a non-author viewer either sees the
post (iff publicly visible) or gets a 404.  For `nullCatPost` — published,
due, no category, hence publicly visible under the spec's optional-category
reading — a non-author viewer gets neither the page nor a 404 but an
unhandled `AttributeError` (`None.is_published`, HTTP 500). -/
theorem c4_detail_counterexample :
    viewerIs bobV nullCatPost.author = false ∧
    publiclyVisibleSpec exDB3 10 nullCatPost = true ∧
    postDetailDispatch exDB3 bobV 3 10 = Outcome.noneTypeError ∧
    postDetailDispatch exDB3 bobV 3 10 ≠ Outcome.success ∧
    postDetailDispatch exDB3 bobV 3 10 ≠ Outcome.notFound404 := by decide

/-- C4, amended: restricted to posts whose category is non-null (and
resolvable), the claim holds: the author always gets the page; any other
viewer gets the page iff `is_published ∧ pub_date ≤ now ∧` the category is
published, and a 404 otherwise.  (For a null category the view raises
instead, see C10.) -/
theorem c4_post_detail_contract (db : DB) (v : Viewer) (pid : Nat)
    (now : Int) (p : Post) (cid : Nat) (c : Category)
    (hp : findPost db pid = some p) (hcat : p.category = some cid)
    (hfc : findCategory db cid = some c) :
    (viewerIs v p.author = true → postDetailDispatch db v pid now = .success) ∧
    (viewerIs v p.author = false →
      ((postDetailDispatch db v pid now = .success ↔
         (p.is_published = true ∧ p.pub_date ≤ now ∧ c.is_published = true)) ∧
       (postDetailDispatch db v pid now ≠ .success →
         postDetailDispatch db v pid now = .notFound404))) := by
  simp only [postDetailDispatch, hp, hcat, hfc]
  constructor
  · intro hv
    simp [hv]
  · intro hv
    simp only [hv]
    cases hpub : p.is_published
    · simp
    · cases hcpub : c.is_published
      · simp
      · by_cases hd : now < p.pub_date
        · simp only [if_pos hd]
          refine ⟨?_, ?_⟩
          · constructor
            · intro h; simp at h
            · rintro ⟨-, hdate, -⟩; exfalso; omega
          · intro _; rfl
        · simp only [if_neg hd]
          refine ⟨?_, ?_⟩
          · simp
            omega
          · intro h; exact absurd rfl h

/-- Witness for `c4_post_detail_contract`: bob sees alice's published post,
and alice sees it as its author. -/
theorem c4_post_detail_contract_witness :
    postDetailDispatch exDB aliceV 1 10 = Outcome.success :=
  (c4_post_detail_contract exDB aliceV 1 10 pubPost 10 catTech (by decide)
    (by decide) (by decide)).1 (by decide)

/-- C5: only the post's author may edit or delete it; any other viewer
(including the anonymous one) is redirected to the post's detail page and
the database is unchanged. -/
theorem c5_post_mutation_author_only (db : DB) (v : Viewer) (pid : Nat)
    (p : Post) (e : PostEdit) (hp : findPost db pid = some p) :
    (postUpdateDispatch db v pid = .success ↔ viewerIs v p.author = true) ∧
    (postDeleteDispatch db v pid = .success ↔ viewerIs v p.author = true) ∧
    (viewerIs v p.author = false →
      (postUpdateDispatch db v pid = .redirectDetail ∧
       postDeleteDispatch db v pid = .redirectDetail ∧
       postUpdateState db v pid e = db ∧
       postDeleteState db v pid = db)) := by
  have hud : postUpdateDispatch db v pid =
      if viewerIs v p.author then .success else .redirectDetail := by
    simp only [postUpdateDispatch, hp]
    cases hauth : v.is_authenticated <;> simp [viewerIs, hauth]
  have hdd : postDeleteDispatch db v pid =
      if viewerIs v p.author then .success else .redirectDetail := by
    simp only [postDeleteDispatch, hp]
    cases hauth : v.is_authenticated <;> simp [viewerIs, hauth]
  refine ⟨?_, ?_, ?_⟩
  · rw [hud]; cases hv : viewerIs v p.author <;> simp
  · rw [hdd]; cases hv : viewerIs v p.author <;> simp
  · intro hv
    have h1 : postUpdateDispatch db v pid = .redirectDetail := by
      rw [hud, hv]; rfl
    have h2 : postDeleteDispatch db v pid = .redirectDetail := by
      rw [hdd, hv]; rfl
    refine ⟨h1, h2, ?_, ?_⟩
    · simp [postUpdateState, h1]
    · simp [postDeleteState, h2]

/-- Witness for `c5_post_mutation_author_only`: bob is turned away from
alice's post and nothing changes. -/
theorem c5_post_mutation_author_only_witness :
    postUpdateDispatch exDB bobV 1 = Outcome.redirectDetail ∧
    postDeleteDispatch exDB bobV 1 = Outcome.redirectDetail ∧
    postUpdateState exDB bobV 1 exEdit = exDB ∧
    postDeleteState exDB bobV 1 = exDB :=
  (c5_post_mutation_author_only exDB bobV 1 pubPost exEdit (by decide)).2.2
    (by decide)

/-- C2, counterexample: the claim says comment update succeeds for an
administrator too.  The admin (superuser, id 3, not the author of bob's
comment) is denied with a 404: `CommentUpdateView.dispatch` runs
`get_object_or_404(Comment, pk=…, author=request.user)` with no superuser
exception — only `CommentDeleteView` has one, and indeed the same admin's
delete succeeds. -/
theorem c2_admin_update_counterexample :
    adminV.is_superuser = true ∧
    viewerIs adminV exComment.author = false ∧
    findComment exDB 1 = some exComment ∧
    commentUpdateDispatch exDB adminV 1 = Outcome.notFound404 ∧
    commentUpdateDispatch exDB adminV 1 ≠ Outcome.success ∧
    commentDeleteDispatch exDB adminV 1 = Outcome.success := by decide

/-- C2, amended: comment DELETE succeeds iff the viewer is authenticated,
the comment exists and the viewer is its author or a superuser; comment
UPDATE succeeds iff the viewer is authenticated and is the comment's
author — a superuser who is not the author is denied (404).  Every
non-success outcome leaves the database unchanged. -/
theorem c2_comment_mutation_rights (db : DB) (v : Viewer) (cid : Nat)
    (newText : String) :
    (commentUpdateDispatch db v cid = .success ↔
      (v.is_authenticated = true ∧
        ∃ c ∈ db.comments, c.id = cid ∧ c.author = v.id)) ∧
    (commentDeleteDispatch db v cid = .success ↔
      (v.is_authenticated = true ∧
        ∃ c, findComment db cid = some c ∧
          (c.author = v.id ∨ v.is_superuser = true))) ∧
    (commentUpdateDispatch db v cid ≠ .success →
      commentUpdateState db v cid newText = db) ∧
    (commentDeleteDispatch db v cid ≠ .success →
      commentDeleteState db v cid = db) := by
  refine ⟨?_, ?_, ?_, ?_⟩
  · by_cases hauth : v.is_authenticated = true
    · simp only [commentUpdateDispatch, if_pos hauth]
      cases hf : db.comments.find? (fun c => c.id == cid && c.author == v.id) with
      | none =>
        constructor
        · intro h; simp at h
        · rintro ⟨-, c, hc, hid, hauthor⟩
          rw [List.find?_eq_none] at hf
          exact absurd (by simp [hid, hauthor]) (hf c hc)
      | some c =>
        constructor
        · intro _
          have hm := List.mem_of_find?_eq_some hf
          have hpred := List.find?_some hf
          simp only [Bool.and_eq_true, beq_iff_eq] at hpred
          exact ⟨hauth, c, hm, hpred.1, hpred.2⟩
        · intro _; rfl
    · simp only [commentUpdateDispatch, if_neg hauth]
      constructor
      · intro h; simp at h
      · rintro ⟨h, -⟩; exact absurd h hauth
  · by_cases hauth : v.is_authenticated = true
    · simp only [commentDeleteDispatch, if_pos hauth]
      cases hf : findComment db cid with
      | none =>
        constructor
        · intro h; simp at h
        · rintro ⟨-, c, hc, -⟩; cases hc
      | some c =>
        change (if (viewerIs v c.author || v.is_superuser) = true
          then Outcome.success else Outcome.forbidden403) = Outcome.success ↔ _
        by_cases hcond : (viewerIs v c.author || v.is_superuser) = true
        · rw [if_pos hcond]
          simp only [Bool.or_eq_true, viewerIs, Bool.and_eq_true,
            beq_iff_eq] at hcond
          constructor
          · intro _
            refine ⟨hauth, c, rfl, ?_⟩
            rcases hcond with ⟨-, hid⟩ | hsup
            · exact Or.inl hid.symm
            · exact Or.inr hsup
          · intro _; rfl
        · rw [if_neg hcond]
          constructor
          · intro h; simp at h
          · rintro ⟨-, c', hc', hor⟩
            rw [Option.some_inj] at hc'
            subst hc'
            exfalso
            apply hcond
            simp only [Bool.or_eq_true, viewerIs, Bool.and_eq_true,
              beq_iff_eq]
            rcases hor with h1 | h2
            · exact Or.inl ⟨hauth, h1.symm⟩
            · exact Or.inr h2
    · simp only [commentDeleteDispatch, if_neg hauth]
      constructor
      · intro h; simp at h
      · rintro ⟨h, -⟩; exact absurd h hauth
  · intro h
    simp only [commentUpdateState, if_neg h]
  · intro h
    simp only [commentDeleteState, if_neg h]

/-- Witness for `c2_comment_mutation_rights`: the admin's denied update and
alice's denied delete leave the database unchanged. -/
theorem c2_comment_mutation_rights_witness :
    commentUpdateState exDB adminV 1 "zzz" = exDB ∧
    commentDeleteState exDB aliceV 1 = exDB :=
  ⟨(c2_comment_mutation_rights exDB adminV 1 "zzz").2.2.1 (by decide),
   (c2_comment_mutation_rights exDB aliceV 1 "zzz").2.2.2 (by decide)⟩

/-- C8: every listing feed (index, profile, category) is ordered newest
first (`pub_date` descending), serves at most `PAGE_NUM = 10` rows per
page, and annotates each row with the exact number of comments on that
post. -/
theorem c8_feeds_sorted_paged_annotated (db : DB) (now : Int) (v : Viewer)
    (username slug : String) (n : Nat) :
    goodFeed db n (indexFeed db now) ∧
    (∀ l, profileFeed db v username = some l → goodFeed db n l) ∧
    (∀ l, categoryFeed db v now slug = .ok l → goodFeed db n l) := by
  refine ⟨goodFeed_pipeline db n _ _, ?_, ?_⟩
  · intro l hl
    simp only [profileFeed] at hl
    cases hu : findUser db username with
    | none => rw [hu] at hl; cases hl
    | some u =>
      rw [hu] at hl
      cases hl
      exact goodFeed_pipeline db n _ _
  · intro l hl
    simp only [categoryFeed] at hl
    by_cases hauth : v.is_authenticated = true
    · rw [if_pos hauth] at hl
      cases hf : db.categories.find? (fun c => c.slug == slug && c.is_published) with
      | none => rw [hf] at hl; cases hl
      | some cat =>
        rw [hf] at hl
        cases hl
        exact goodFeed_pipeline db n _ _
    · rw [if_neg hauth] at hl
      cases hl

/-- Witness for `c8_feeds_sorted_paged_annotated`: the category feed alice
receives for slug "tech" is a good feed. -/
theorem c8_feeds_sorted_paged_annotated_witness :
    goodFeed exDB 1 [⟨pubPost, 1⟩] :=
  (c8_feeds_sorted_paged_annotated exDB 10 aliceV "alice" "tech" 1).2.2
    [⟨pubPost, 1⟩] (by decide)

/-- C7, counterexample: deletion does NOT cascade only along the
Post→Comment edge.  `Post.author` and `Comment.author` are
`on_delete=CASCADE` (models.py 79-83, 128-133), so deleting user alice
(id 1) deletes her post — and with it bob's comment — although no post was
deleted directly. -/
theorem c7_user_cascade_counterexample :
    exDB.posts = [pubPost] ∧ exDB.comments = [exComment] ∧
    exComment.author = 2 ∧
    (deleteUser exDB 1).posts = [] ∧
    (deleteUser exDB 1).comments = [] := by decide

/-- C7, amended: deleting a post removes exactly that post and exactly the
comments whose parent it is, touching no other table; deleting a category
or location deletes no post — every dependent post survives with the
foreign key cleared to null and all other fields unchanged; in addition
(which the claim's "only" missed) deleting a user cascades to the user's
posts. -/
theorem c7_delete_cascade_shape (db : DB) (pid cid lid uid : Nat) :
    ((∀ c : Comment, c ∈ (deletePost db pid).comments ↔
        (c ∈ db.comments ∧ c.post ≠ pid)) ∧
     (∀ q : Post, q ∈ (deletePost db pid).posts ↔
        (q ∈ db.posts ∧ q.id ≠ pid)) ∧
     (deletePost db pid).categories = db.categories ∧
     (deletePost db pid).locations = db.locations ∧
     (deletePost db pid).users = db.users) ∧
    ((deleteCategory db cid).posts.length = db.posts.length ∧
     (∀ p, p ∈ db.posts → clearCategoryFK cid p ∈ (deleteCategory db cid).posts) ∧
     (∀ p : Post, (clearCategoryFK cid p).category =
        (if p.category = some cid then none else p.category) ∧
       (clearCategoryFK cid p).id = p.id ∧
       (clearCategoryFK cid p).title = p.title ∧
       (clearCategoryFK cid p).text = p.text ∧
       (clearCategoryFK cid p).pub_date = p.pub_date ∧
       (clearCategoryFK cid p).is_published = p.is_published ∧
       (clearCategoryFK cid p).author = p.author ∧
       (clearCategoryFK cid p).location = p.location ∧
       (clearCategoryFK cid p).image = p.image)) ∧
    ((deleteLocation db lid).posts.length = db.posts.length ∧
     (∀ p, p ∈ db.posts → clearLocationFK lid p ∈ (deleteLocation db lid).posts) ∧
     (∀ p : Post, (clearLocationFK lid p).location =
        (if p.location = some lid then none else p.location) ∧
       (clearLocationFK lid p).category = p.category ∧
       (clearLocationFK lid p).id = p.id ∧
       (clearLocationFK lid p).title = p.title ∧
       (clearLocationFK lid p).text = p.text ∧
       (clearLocationFK lid p).pub_date = p.pub_date ∧
       (clearLocationFK lid p).is_published = p.is_published ∧
       (clearLocationFK lid p).author = p.author ∧
       (clearLocationFK lid p).image = p.image)) ∧
    (∀ q : Post, q ∈ (deleteUser db uid).posts ↔
       (q ∈ db.posts ∧ q.author ≠ uid)) := by
  refine ⟨⟨?_, ?_, rfl, rfl, rfl⟩, ⟨?_, ?_, ?_⟩, ⟨?_, ?_, ?_⟩, ?_⟩
  · intro c
    simp [deletePost, List.mem_filter]
  · intro q
    simp [deletePost, List.mem_filter]
  · simp [deleteCategory]
  · intro p hp
    simp only [deleteCategory]
    exact List.mem_map_of_mem _ hp
  · intro p
    by_cases h : p.category = some cid <;>
      simp [clearCategoryFK, beq_iff_eq, h]
  · simp [deleteLocation]
  · intro p hp
    simp only [deleteLocation]
    exact List.mem_map_of_mem _ hp
  · intro p
    by_cases h : p.location = some lid <;>
      simp [clearLocationFK, beq_iff_eq, h]
  · intro q
    simp [deleteUser, List.mem_filter]

/-- Witness for `c7_delete_cascade_shape`: deleting the "tech" category
keeps alice's post, with its category cleared. -/
theorem c7_delete_cascade_shape_witness :
    clearCategoryFK 10 pubPost ∈ (deleteCategory exDB 10).posts :=
  (c7_delete_cascade_shape exDB 1 10 20 2).2.1.2.1 pubPost (by decide)

/-- C6, counterexample: the claim says the category feed answers 404 iff
the slug is missing or its category is unpublished.  `CategoryListView`
also carries `LoginRequiredMixin`: for the anonymous viewer and a slug
that matches no category the response is a redirect to the login page,
not a 404. -/
theorem c6_anonymous_redirect_counterexample :
    (∀ c ∈ exDB.categories, c.slug ≠ "nosuch") ∧
    categoryFeed exDB anonV 10 "nosuch" = .error .redirectLogin ∧
    categoryFeed exDB anonV 10 "nosuch" ≠ .error .notFound404 := by decide

/-- C6, amended: for an authenticated viewer (anonymous requests are
redirected to login regardless of slug) and a database whose category ids
and slugs are unique (both columns are unique in the schema), the category
feed answers 404 iff no category bears the slug or the category bearing it
is unpublished; otherwise it lists exactly the publicly visible posts
belonging to that category. -/
theorem c6_category_feed_contract (db : DB) (v : Viewer) (now : Int)
    (slug : String) (hauth : v.is_authenticated = true)
    (hids : db.categories.Pairwise (fun a b => a.id ≠ b.id))
    (hslugs : db.categories.Pairwise (fun a b => a.slug ≠ b.slug)) :
    (categoryFeed db v now slug = .error .notFound404 ↔
      ((∀ c ∈ db.categories, c.slug ≠ slug) ∨
       (∃ c ∈ db.categories, c.slug = slug ∧ c.is_published = false))) ∧
    (∀ l, categoryFeed db v now slug = .ok l →
      ∃ cat ∈ db.categories, cat.slug = slug ∧ cat.is_published = true ∧
        ∀ p : Post, ((∃ a ∈ l, a.post = p) ↔
          (p ∈ db.posts ∧ p.category = some cat.id ∧
           publiclyVisibleSpec db now p = true))) := by
  simp only [categoryFeed, if_pos hauth]
  cases hf : db.categories.find? (fun c => c.slug == slug && c.is_published) with
  | none =>
    rw [List.find?_eq_none] at hf
    constructor
    · constructor
      · intro _
        by_cases hex : ∃ c ∈ db.categories, c.slug = slug
        · obtain ⟨c0, hc0, hs0⟩ := hex
          right
          refine ⟨c0, hc0, hs0, ?_⟩
          have hnc := hf c0 hc0
          simp only [Bool.and_eq_true, beq_iff_eq, not_and] at hnc
          cases hP : c0.is_published
          · rfl
          · exact absurd hP (hnc hs0)
        · left
          intro c hc hs
          exact hex ⟨c, hc, hs⟩
      · intro _; rfl
    · intro l hl
      cases hl
  | some cat =>
    have hmem := List.mem_of_find?_eq_some hf
    have hpred := List.find?_some hf
    simp only [Bool.and_eq_true, beq_iff_eq] at hpred
    obtain ⟨hslug, hpub⟩ := hpred
    constructor
    · constructor
      · intro h; cases h
      · intro hor
        exfalso
        rcases hor with hall | ⟨c0, hc0, hs0, hP0⟩
        · exact hall cat hmem hslug
        · have hco : c0 = cat :=
            eq_of_pairwise_key Category.slug hslugs hc0 hmem
              (hs0.trans hslug.symm)
          rw [hco, hpub] at hP0
          exact Bool.noConfusion hP0
    · intro l hl
      cases hl
      refine ⟨cat, hmem, hslug, hpub, ?_⟩
      intro p
      rw [mem_pipeline]
      have hfc : findCategory db cat.id = some cat := by
        unfold findCategory
        exact find?_self_of_mem Category.id hids hmem
      constructor
      · rintro ⟨hp, hfil⟩
        simp only [categoryFilter, Bool.and_eq_true, decide_eq_true_eq,
          beq_iff_eq] at hfil
        obtain ⟨⟨⟨⟨hpubp, hdate⟩, hjoin⟩, hsj⟩, hcatp⟩ := hfil
        refine ⟨hp, hcatp, ?_⟩
        unfold publiclyVisibleSpec
        simp only [hcatp, hfc, Bool.and_eq_true, decide_eq_true_eq]
        exact ⟨⟨hpubp, hdate⟩, hpub⟩
      · rintro ⟨hp, hcatp, hvis⟩
        refine ⟨hp, ?_⟩
        unfold publiclyVisibleSpec at hvis
        simp only [hcatp, hfc, Bool.and_eq_true, decide_eq_true_eq] at hvis
        obtain ⟨⟨hpubp, hdate⟩, -⟩ := hvis
        simp only [categoryFilter, Bool.and_eq_true, decide_eq_true_eq,
          beq_iff_eq]
        refine ⟨⟨⟨⟨hpubp, hdate⟩, ?_⟩, ?_⟩, hcatp⟩
        · rw [categoryPublishedJoin_of_eq hcatp hfc]
          exact hpub
        · rw [categorySlugJoin_of_eq hcatp hfc]
          simp [hslug]

/-- Witness for `c6_category_feed_contract`: an authenticated request with
an unknown slug gets the 404. -/
theorem c6_category_feed_contract_witness :
    categoryFeed exDB aliceV 10 "nosuch" = FeedResult.error Outcome.notFound404 :=
  ((c6_category_feed_contract exDB aliceV 10 "nosuch" (by decide) (by decide)
      (by decide)).1).mpr (Or.inl (by decide))

end Blogicum
